import Mathlib

/-!
Verification development for the Immune Atlas repository.

The Python sources are shallowly embedded in Lean:
* floats are modelled by `ℚ` (all arithmetic the claims concern is exact
  rational arithmetic on the generated values);
* `np.random` draws are abstracted as explicit oracle parameters (a function
  supplying the drawn value at each call site), so every definition is a pure
  function of the data plus the random stream;
* SQLAlchemy tables are lists of records, SQL joins are list `flatMap`s over
  matching rows, `GROUP BY` is key deduplication plus per-key filtering, `AVG`
  is sum/length, and `ORDER BY` is `List.insertionSort` with the relevant
  comparison relation.
-/

namespace ImmuneAtlas

/-! ### Generic helpers -/

/-- SQL `AVG` over a (nonempty) group of values: sum divided by count. -/
def avgList (vs : List ℚ) : ℚ := vs.sum / vs.length

/-- SQL `AVG` over a column that is `NULL` on the rows not in the group:
`NULL` (i.e. `none`) when there is no value at all, the plain average
otherwise.  This is how `func.avg(case([...], else_=None))` behaves. -/
def sqlAvg (vs : List ℚ) : Option ℚ := if vs.isEmpty then none else some (avgList vs)

/-- Python `int()` applied to a float: truncation toward zero. -/
def pyInt (q : ℚ) : ℤ := if 0 ≤ q then ⌊q⌋ else ⌈q⌉

/-- Byte-wise (code-point-wise) `≤` on character lists: SQLite's BINARY
collation, which is what `ORDER BY` on a `String` column uses.  For the ASCII
labels stored by this program it agrees with Python/SQLite string comparison. -/
def charListLeb : List Char → List Char → Bool
  | [], _ => true
  | _ :: _, [] => false
  | a :: as, b :: bs =>
    if a.toNat < b.toNat then true
    else if b.toNat < a.toNat then false
    else charListLeb as bs

/-- Lexical (BINARY-collation) string comparison used by the SQL `ORDER BY`. -/
def strLeb (s t : String) : Bool := charListLeb s.data t.data

/-! ### Data model (src/models.py) -/

/-- `models.Cohort` (table `cohorts`). -/
structure Cohort where
  cohort_id : ℕ
  indication : String
  specimens_count : ℕ
  patients_count : ℕ
  analyzed_specimens : ℕ
  cells_phenotyped : ℕ
deriving DecidableEq

/-- `models.Patient` (table `patients`). -/
structure Patient where
  patient_id : ℕ
  cohort_id : ℕ
  responder : Bool
deriving DecidableEq

/-- `models.Specimen` (table `specimens`). -/
structure Specimen where
  specimen_id : ℕ
  patient_id : ℕ
  timepoint : String
  specimen_type : String
  drug_class : Option String
deriving DecidableEq

/-- `models.CellPopulation` (table `cell_populations`). -/
structure CellPopulation where
  id : ℕ
  specimen_id : ℕ
  cell_type : String
  cell_count : ℤ
  percentage : ℚ
deriving DecidableEq

/-- The database state: the tables of src/models.py that the claims concern.
(The `cells` and `cell_markers` tables written by `_generate_individual_cells`
are not modelled; no claim mentions them.) -/
structure DB where
  cohorts : List Cohort
  patients : List Patient
  specimens : List Specimen
  cell_populations : List CellPopulation
deriving DecidableEq

/-! ### Sample-data generator (src/database.py) -/

/-- The timepoint vocabulary of `_generate_sample_specimens` (database.py:112),
in the chronological order in which the source lists it. -/
def timepoint_vocab : List String := ["Baseline", "C1D1", "C1D14", "C2D1", "C2D14"]

/-- Chronological rank of a timepoint label: its position in the fixed
vocabulary. -/
def chronoRank (tp : String) : ℕ := List.indexOf tp timepoint_vocab

/-- The fixed eight-element cell-type list of
`_generate_sample_cell_populations` (database.py:148-157). -/
def cell_types : List String :=
  ["CD4 T Central Memory", "CD4 T Effector Memory", "CD8 T Central Memory",
   "CD8 T Effector Memory", "NK Cells", "B Cells", "Monocytes", "Dendritic Cells"]

/-- The upper argument `max_pct = min(remaining_percentage * 0.8, 50)` passed
to `np.random.uniform` (database.py:178). -/
def maxPct (remaining : ℚ) : ℚ := min (remaining * (8/10)) 50

/-- `np.random.uniform(0.5, max_pct)` (database.py:179) at parameter
`u ∈ [0,1)`: numpy computes `low + (high - low) * u`, so when
`max_pct < 0.5` the bounds are effectively swapped. -/
def drawPct (remaining u : ℚ) : ℚ := 1/2 + (maxPct remaining - 1/2) * u

/-- The inner loop of `_generate_sample_cell_populations` (database.py:172-193)
for one specimen: walk the cell-type list with loop index `j`, the last cell
type receiving the whole remaining percentage, every other one a drawn share;
each population stores `cell_count = int(percentage / 100 * total_cells)`.
`u` is the stream of `np.random.uniform` parameters, `sid` the specimen id,
`cid` the id of the first generated `CellPopulation` row. -/
def genCellPops (t : ℤ) (u : ℕ → ℚ) (sid cid : ℕ) :
    List String → ℕ → ℚ → List CellPopulation
  | [], _, _ => []
  | [ct], j, r => [⟨cid + j, sid, ct, pyInt (r / 100 * t), r⟩]
  | ct :: ct2 :: cts, j, r =>
    let p := drawPct r (u j)
    ⟨cid + j, sid, ct, pyInt (p / 100 * t), p⟩ ::
      genCellPops t u sid cid (ct2 :: cts) (j + 1) (r - p)

/-- The random draws consumed by `load_sample_data`'s generation pipeline,
abstracted as explicit oracles (unseeded `np.random` in the source):
`responderDraw` is the Bernoulli responder flag per patient,
`numSpecimens`/`timepointChoice` the per-patient specimen count draw and the
without-replacement timepoint selection, `specimenTypeDraw`/`drugClassDraw`
the per-specimen type and drug class choices, `totalCellsDraw` the specimen's
total cell count in `[100000, 1000000)`, and `pctDraw i` the stream of
`np.random.uniform` parameters for specimen number `i`. -/
structure Gen where
  responderDraw : ℕ → Bool
  numSpecimens : ℕ → ℕ
  timepointChoice : ℕ → ℕ → List String
  specimenTypeDraw : ℕ → String
  drugClassDraw : ℕ → Option String
  totalCellsDraw : ℕ → ℤ
  pctDraw : ℕ → ℕ → ℚ

/-- The five literal cohorts of `_load_cohorts` (database.py:66-77). -/
def cohorts_data : List Cohort :=
  [⟨1, "Melanoma", 76, 34, 76, 103477921⟩,
   ⟨2, "UC and Bladder", 204, 79, 204, 114479742⟩,
   ⟨3, "Melanoma", 468, 257, 460, 109679499⟩,
   ⟨4, "Melanoma", 386, 142, 239, 122503137⟩,
   ⟨5, "NSCLC", 35, 12, 35, 7379869⟩]

/-- `DatabaseManager._load_cohorts`: adds the five literal cohorts. -/
def _load_cohorts (st : DB) : DB :=
  { st with cohorts := st.cohorts ++ cohorts_data }

/-- Patients generated per cohort with sequential ids starting at `nextId`
(`_generate_sample_patients`, database.py:83-106). -/
def genPatientsAux (g : Gen) : List Cohort → ℕ → List Patient
  | [], _ => []
  | co :: cos, nextId =>
    ((List.range co.patients_count).map fun i =>
      ⟨nextId + i, co.cohort_id, g.responderDraw (nextId + i)⟩)
      ++ genPatientsAux g cos (nextId + co.patients_count)

/-- `DatabaseManager._generate_sample_patients`. -/
def _generate_sample_patients (g : Gen) (st : DB) : DB :=
  { st with patients := st.patients ++ genPatientsAux g st.cohorts 1 }

/-- Specimens generated per patient with sequential ids
(`_generate_sample_specimens`, database.py:108-141): each patient draws
`num_specimens = randint(2, 6) ∈ {2..5}` and that many timepoints chosen
without replacement (the selection itself is part of the random oracle). -/
def genSpecimensAux (g : Gen) : List Patient → ℕ → List Specimen
  | [], _ => []
  | p :: ps, nextId =>
    let n := 2 + g.numSpecimens p.patient_id % 4
    let tps := g.timepointChoice p.patient_id n
    (tps.enum.map fun itp =>
      ⟨nextId + itp.1, p.patient_id, itp.2,
       g.specimenTypeDraw (nextId + itp.1), g.drugClassDraw (nextId + itp.1)⟩)
      ++ genSpecimensAux g ps (nextId + tps.length)

/-- `DatabaseManager._generate_sample_specimens`. -/
def _generate_sample_specimens (g : Gen) (st : DB) : DB :=
  { st with specimens := st.specimens ++ genSpecimensAux g st.patients 1 }

/-- `DatabaseManager._generate_sample_cell_populations`: for every specimen in
the table, eight populations (`cell_id` running sequentially, eight ids per
specimen).  The subsequent `_generate_individual_cells` call only writes the
unmodelled `cells`/`cell_markers` tables. -/
def _generate_sample_cell_populations (g : Gen) (st : DB) : DB :=
  { st with cell_populations := st.cell_populations ++
      (st.specimens.enum.flatMap fun is =>
        genCellPops (g.totalCellsDraw is.1) (g.pctDraw is.1) is.2.specimen_id
          (1 + 8 * is.1) cell_types 0 100) }

/-- The seeding block executed by `load_sample_data` when the cohort count is
zero (database.py:43-46). -/
def seedPipeline (g : Gen) (st : DB) : DB :=
  _generate_sample_cell_populations g
    (_generate_sample_specimens g (_generate_sample_patients g (_load_cohorts st)))

/-- `DatabaseManager.load_sample_data`, success path (the `COUNT(*)` query on
`cohorts` succeeds): seed exactly when the cohorts table is empty. -/
def load_sample_data (g : Gen) (st : DB) : DB :=
  if st.cohorts.length = 0 then seedPipeline g st else st

/-- `DatabaseManager.load_sample_data` with the storage layer made explicit
(database.py:33-62).  `att0` is the outcome of the initial
`SELECT COUNT(*) FROM cohorts`; on failure the exception is caught, the
schema is re-created (`init_db`) and the count query is retried with outcome
`att1` — that retry is NOT inside a `try`, so its failure propagates to the
caller as a raised exception. -/
def load_sample_data_result (att0 att1 : Except String ℕ) (g : Gen) (st : DB) :
    Except String DB :=
  match att0 with
  | .ok n => .ok (if n = 0 then seedPipeline g st else st)
  | .error _ =>
    match att1 with
    | .ok n => .ok (if n = 0 then seedPipeline g st else st)
    | .error e => .error e

/-! ### Aggregation queries (src/immune_atlas_utils.py) -/

/-- One output row of `find_discriminating_cell_types`. -/
structure DiscRow where
  cell_type : String
  avg_percentage_responder : ℚ
  avg_percentage_non_responder : ℚ
  difference : ℚ
  abs_difference : ℚ
deriving DecidableEq

/-- The row set underlying both subqueries of `find_discriminating_cell_types`
(immune_atlas_utils.py:147-176): `CellPopulation ⋈ Specimen ⋈ Patient`
restricted to the cohort and to the given responder flag; each surviving join
row contributes its `(cell_type, percentage)`. -/
def discJoinedRows (db : DB) (cohort_id : ℕ) (resp : Bool) : List (String × ℚ) :=
  db.cell_populations.flatMap fun cp =>
    (db.specimens.filter fun s => s.specimen_id == cp.specimen_id).flatMap fun s =>
      (db.patients.filter fun p =>
          p.patient_id == s.patient_id && p.cohort_id == cohort_id &&
            p.responder == resp).map fun _ =>
        (cp.cell_type, cp.percentage)

/-- One of the two `GROUP BY cell_type` / `AVG(percentage)` subqueries of
`find_discriminating_cell_types`: one row per distinct cell type with the
flat average over all matching population rows of that responder group. -/
def discSubquery (db : DB) (cohort_id : ℕ) (resp : Bool) : List (String × ℚ) :=
  ((discJoinedRows db cohort_id resp).map Prod.fst).dedup.map fun ct =>
    (ct, avgList (((discJoinedRows db cohort_id resp).filter
      fun pr => pr.1 == ct).map Prod.snd))

/-- The inner join of the two subqueries on `cell_type`
(immune_atlas_utils.py:179-192), computing `difference` and
`abs_difference`. -/
def discJoin (db : DB) (cohort_id : ℕ) : List DiscRow :=
  (discSubquery db cohort_id true).flatMap fun ar =>
    ((discSubquery db cohort_id false).filter fun an => an.1 == ar.1).map fun an =>
      ⟨ar.1, ar.2, an.2, ar.2 - an.2, |ar.2 - an.2|⟩

/-- The `ORDER BY abs_difference DESC` relation. -/
def discGE (a b : DiscRow) : Prop := b.abs_difference ≤ a.abs_difference

instance : DecidableRel discGE := fun a b =>
  inferInstanceAs (Decidable (b.abs_difference ≤ a.abs_difference))

instance : IsTotal DiscRow discGE := ⟨fun a b => le_total b.abs_difference a.abs_difference⟩

instance : IsTrans DiscRow discGE := ⟨fun _ _ _ h1 h2 => le_trans h2 h1⟩

/-- `find_discriminating_cell_types` (immune_atlas_utils.py:133-206): join the
responder and non-responder per-cell-type averages, sort descending by
`abs_difference`, then — only when the frame is nonempty and
`min_difference > 0` — keep the rows with `abs_difference >= min_difference`. -/
def find_discriminating_cell_types (db : DB) (cohort_id : ℕ)
    (min_difference : ℚ) : List DiscRow :=
  let df := List.insertionSort discGE (discJoin db cohort_id)
  if df ≠ [] ∧ 0 < min_difference then
    df.filter fun row => min_difference ≤ row.abs_difference
  else df

/-- One output row of `get_cell_type_comparison` (after the pandas step adds
`responder_status`). -/
structure CompRow where
  responder : Bool
  timepoint : String
  specimen_type : String
  drug_class : Option String
  avg_percentage : ℚ
  avg_cell_count : ℚ
  patient_count : ℕ
  responder_status : String
deriving DecidableEq

/-- A pre-grouping join row of `get_cell_type_comparison`. -/
structure CompSrcRow where
  responder : Bool
  timepoint : String
  specimen_type : String
  drug_class : Option String
  percentage : ℚ
  cell_count : ℤ
  patient_id : ℕ
deriving DecidableEq

/-- A `GROUP BY` key of `get_cell_type_comparison`
(responder, timepoint, specimen_type, drug_class). -/
structure CompKey where
  responder : Bool
  timepoint : String
  specimen_type : String
  drug_class : Option String
deriving DecidableEq

/-- The timepoint filter of `get_cell_type_comparison`
(immune_atlas_utils.py:47-48): Python's `if timepoints:` is falsy both for
`None` and for an empty list, in which case no filter is applied at all. -/
def tpFilterOk (tps : Option (List String)) (tp : String) : Bool :=
  match tps with
  | none => true
  | some l => if l.isEmpty then true else l.contains tp

/-- The joined, filtered row set of `get_cell_type_comparison`
(immune_atlas_utils.py:28-48): `Patient ⋈ Specimen ⋈ CellPopulation`
restricted to the cohort, the cell type, and the optional timepoint list. -/
def compJoinedRows (db : DB) (cohort_id : ℕ) (cell_type : String)
    (tps : Option (List String)) : List CompSrcRow :=
  db.patients.flatMap fun p =>
    if p.cohort_id == cohort_id then
      (db.specimens.filter fun s =>
          s.patient_id == p.patient_id && tpFilterOk tps s.timepoint).flatMap fun s =>
        (db.cell_populations.filter fun cp =>
            cp.specimen_id == s.specimen_id && cp.cell_type == cell_type).map fun cp =>
          ⟨p.responder, s.timepoint, s.specimen_type, s.drug_class,
           cp.percentage, cp.cell_count, p.patient_id⟩
    else []

/-- The group key of a join row. -/
def compKeyOf (r : CompSrcRow) : CompKey :=
  ⟨r.responder, r.timepoint, r.specimen_type, r.drug_class⟩

/-- The `ORDER BY Specimen.timepoint` relation: lexical (BINARY-collation)
comparison of the timepoint strings. -/
def compTpLE (a b : CompRow) : Prop := strLeb a.timepoint b.timepoint = true

instance : DecidableRel compTpLE := fun _ _ =>
  inferInstanceAs (Decidable (_ = true))

instance : IsTotal CompRow compTpLE where
  total := by
    have key : ∀ as bs : List Char,
        charListLeb as bs = true ∨ charListLeb bs as = true := by
      intro as
      induction as with
      | nil => intro bs; left; rfl
      | cons a as ih =>
        intro bs
        cases bs with
        | nil => right; rfl
        | cons b bs =>
          simp only [charListLeb]
          rcases Nat.lt_trichotomy a.toNat b.toNat with h | h | h
          · left; simp [h]
          · have h1 : ¬ a.toNat < b.toNat := by omega
            have h2 : ¬ b.toNat < a.toNat := by omega
            rcases ih bs with hc | hc
            · left; simp [h1, h2, hc]
            · right; simp [h1, h2, hc]
          · right; simp [h]
    intro a b
    exact key a.timepoint.data b.timepoint.data

instance : IsTrans CompRow compTpLE where
  trans := by
    have key : ∀ as bs cs : List Char, charListLeb as bs = true →
        charListLeb bs cs = true → charListLeb as cs = true := by
      intro as
      induction as with
      | nil => intro bs cs _ _; rfl
      | cons a as ih =>
        intro bs cs hab hbc
        cases bs with
        | nil => simp [charListLeb] at hab
        | cons b bs =>
          cases cs with
          | nil => simp [charListLeb] at hbc
          | cons c cs =>
            simp only [charListLeb] at hab hbc ⊢
            split_ifs at hab hbc ⊢ <;> first
              | rfl
              | omega
              | (exact ih bs cs hab hbc)
    intro a b c hab hbc
    exact key a.timepoint.data b.timepoint.data c.timepoint.data hab hbc

/-- `get_cell_type_comparison` (immune_atlas_utils.py:13-70): group the joined
rows by (responder, timepoint, specimen_type, drug_class), take the average
percentage, average cell count and distinct-patient count per group, order by
the raw `Specimen.timepoint` string, and attach the pandas
`responder_status` label. -/
def get_cell_type_comparison (db : DB) (cohort_id : ℕ) (cell_type : String)
    (tps : Option (List String)) : List CompRow :=
  let rows := compJoinedRows db cohort_id cell_type tps
  let grouped := (rows.map compKeyOf).dedup.map fun k =>
    let g := rows.filter fun r => compKeyOf r == k
    CompRow.mk k.responder k.timepoint k.specimen_type k.drug_class
      (avgList (g.map fun r => r.percentage))
      (avgList (g.map fun r => (r.cell_count : ℚ)))
      ((g.map fun r => r.patient_id).dedup).length
      (if k.responder then "Responder" else "Non-Responder")
  List.insertionSort compTpLE grouped

/-- One output row of `calculate_response_prediction_metrics`.  The
`correlation` column, computed afterwards in pandas (point-biserial
correlation over floats), is not modelled; no claim concerns it. -/
structure MetricsRow where
  cell_type : String
  avg_responder : Option ℚ
  avg_non_responder : Option ℚ
  difference : Option ℚ
  patient_count : ℕ
  responder_count : ℕ
  non_responder_count : ℕ
deriving DecidableEq

/-- The `avg_percentages` subquery of `calculate_response_prediction_metrics`
(immune_atlas_utils.py:281-298): one row per (patient, responder flag) with
the patient's average percentage of the cell type in the cohort. -/
def perPatientRows (db : DB) (cohort_id : ℕ) (cell_type : String) :
    List (ℕ × Bool × ℚ) :=
  let rows := db.patients.flatMap fun p =>
    if p.cohort_id == cohort_id then
      (db.specimens.filter fun s => s.patient_id == p.patient_id).flatMap fun s =>
        (db.cell_populations.filter fun cp =>
            cp.specimen_id == s.specimen_id && cp.cell_type == cell_type).map fun cp =>
          (p.patient_id, p.responder, cp.percentage)
    else []
  (rows.map fun r => (r.1, r.2.1)).dedup.map fun k =>
    (k.1, k.2, avgList ((rows.filter fun r =>
      r.1 == k.1 && r.2.1 == k.2).map fun r => r.2.2))

/-- The metrics row computed for a single cell type
(immune_atlas_utils.py:301-366): group averages via
`AVG(CASE WHEN responder THEN avg_percentage ELSE NULL END)` (so an empty
group yields SQL `NULL`), their difference (`NULL` if either side is), and
the patient counts. -/
def response_prediction_row (db : DB) (cohort_id : ℕ) (cell_type : String) :
    MetricsRow :=
  let pr := perPatientRows db cohort_id cell_type
  let rvs := (pr.filter fun r => r.2.1 == true).map fun r => r.2.2
  let nvs := (pr.filter fun r => r.2.1 == false).map fun r => r.2.2
  ⟨cell_type, sqlAvg rvs, sqlAvg nvs,
   (sqlAvg rvs).bind fun a => (sqlAvg nvs).map fun b => a - b,
   ((pr.map fun r => r.1).dedup).length, rvs.length, nvs.length⟩

/-- The default cell-type list of `calculate_response_prediction_metrics`
(immune_atlas_utils.py:268-275): the distinct cell types reachable in the
cohort. -/
def distinctCellTypes (db : DB) (cohort_id : ℕ) : List String :=
  (db.cell_populations.flatMap fun cp =>
    (db.specimens.filter fun s => s.specimen_id == cp.specimen_id).flatMap fun s =>
      (db.patients.filter fun p =>
          p.patient_id == s.patient_id && p.cohort_id == cohort_id).map fun _ =>
        cp.cell_type).dedup

/-- `calculate_response_prediction_metrics` (immune_atlas_utils.py:254-389):
one metrics row per requested cell type (all reachable cell types when the
argument list is empty/None — Python truthiness again). -/
def calculate_response_prediction_metrics (db : DB) (cohort_id : ℕ)
    (cts : List String) : List MetricsRow :=
  (if cts.isEmpty then distinctCellTypes db cohort_id else cts).map
    (response_prediction_row db cohort_id)

/-! ### The second seeding module (src/database/seed_data.py, over the
src/database/models.py schema) -/

namespace Seed

/-- `database.models.Cohort`. -/
structure SCohort where
  id : ℕ
  indication : String
  type : String
  num_specimens : ℕ
  num_patients : ℕ
  analyzed_specimens : ℕ
  treatment : String
deriving DecidableEq

/-- `database.models.Marker`. -/
structure SMarker where
  id : ℕ
  name : String
  category : String
  description : String
deriving DecidableEq

/-- `database.models.Timepoint`. -/
structure STimepoint where
  id : ℕ
  name : String
  order : ℕ
deriving DecidableEq

/-- `database.models.MarkerData` (table `marker_data`). -/
structure SMarkerData where
  id : ℕ
  cohort_id : ℕ
  marker_id : ℕ
  timepoint_id : ℕ
  responder_value : ℚ
  nonresponder_value : ℚ
deriving DecidableEq

/-- `database.models.CellTypeData`. -/
structure SCellTypeData where
  id : ℕ
  cohort_id : ℕ
  cell_type : String
  responder_frequency : ℚ
  nonresponder_frequency : ℚ
deriving DecidableEq

/-- The session state of the seed_data module: its five tables. -/
structure SeedDB where
  cohorts : List SCohort
  markers : List SMarker
  timepoints : List STimepoint
  marker_data : List SMarkerData
  cell_type_data : List SCellTypeData
deriving DecidableEq

/-- The twelve literal cohorts of `seed_cohorts` (seed_data.py:7-41). -/
def cohorts_rows : List SCohort :=
  [⟨1, "Melanoma", "Cancer", 76, 34, 76, "Anti-PD-1 (Pembrolizumab)"⟩,
   ⟨2, "UC and Bladder", "Cancer", 204, 79, 204, "Anti-PD-L1 (Atezolizumab)"⟩,
   ⟨3, "Melanoma", "Cancer", 468, 257, 460, "Anti-PD-1 + Anti-CTLA-4 Combo"⟩,
   ⟨4, "Melanoma", "Cancer", 386, 142, 239, "Anti-PD-1 (Nivolumab)"⟩,
   ⟨5, "NSCLC", "Cancer", 35, 12, 35, "Anti-PD-1 (Pembrolizumab)"⟩,
   ⟨6, "Melanoma", "Cancer", 501, 132, 501, "TIL Therapy"⟩,
   ⟨7, "SLE", "Autoimmune", 127, 56, 127, "Standard of Care"⟩,
   ⟨8, "Rheumatoid Arthritis", "Autoimmune", 185, 80, 183, "JAK Inhibitor"⟩,
   ⟨9, "Lupus", "Autoimmune", 206, 89, 202, "B Cell Depletion Therapy"⟩,
   ⟨10, "Type 1 Diabetes", "Autoimmune", 94, 40, 91, "Experimental Immunotherapy"⟩,
   ⟨11, "Multiple Sclerosis", "Autoimmune", 152, 67, 148, "Anti-CD20 Therapy"⟩,
   ⟨12, "Crohn's Disease", "Autoimmune", 178, 74, 172, "Anti-TNF Therapy"⟩]

/-- `seed_cohorts`: adds the twelve cohorts and commits. -/
def seed_cohorts (st : SeedDB) : SeedDB :=
  { st with cohorts := st.cohorts ++ cohorts_rows }

/-- The `marker_categories` dict of `seed_markers` (seed_data.py:47-55), in
insertion order. -/
def marker_categories : List (String × List String) :=
  [("T Cell Markers",
    ["CD3", "CD4", "CD8a", "CD27", "CD28", "CD45RA", "CD127", "Foxp3", "CD25", "gdTCR"]),
   ("Activation Markers", ["CD69", "CD95", "Ki67", "ICOS", "CD38", "HLA-DR"]),
   ("Checkpoint Molecules", ["PD-1", "PD-L1", "CTLA-4", "TIM3", "LAG-3", "TIGIT"]),
   ("NK Cell Markers", ["CD56", "CD16", "CD57", "KLRG-1"]),
   ("Myeloid Cell Markers",
    ["CD11b", "CD11c", "CD14", "CD33", "CD66b", "CD86", "CD123", "LOX-1", "CD15"]),
   ("B Cell Markers", ["CD19", "CD74", "IgG4"]),
   ("Other Markers", ["CD45", "CD161", "CD39", "GranzymeB", "Tbet", "CCR7"])]

/-- The marker rows built by `seed_markers` (seed_data.py:105-123): sequential
ids over the category/name nesting.  The free-text `marker_info` descriptions
(seed_data.py:58-103) are elided — no claim concerns them. -/
def markers_rows : List SMarker :=
  ((marker_categories.flatMap fun cat =>
    cat.2.map fun nm => (nm, cat.1)).enum).map fun inc =>
    ⟨inc.1 + 1, inc.2.1, inc.2.2, ""⟩

/-- `seed_markers`: adds the marker catalog and commits. -/
def seed_markers (st : SeedDB) : SeedDB :=
  { st with markers := st.markers ++ markers_rows }

/-- The five literal timepoints of `seed_timepoints` (seed_data.py:125-137). -/
def timepoints_rows : List STimepoint :=
  [⟨1, "Baseline", 1⟩, ⟨2, "Day 1", 2⟩, ⟨3, "Day 14", 3⟩,
   ⟨4, "Day 28", 4⟩, ⟨5, "Day 42", 5⟩]

/-- `seed_timepoints`: adds the five timepoints and commits. -/
def seed_timepoints (st : SeedDB) : SeedDB :=
  { st with timepoints := st.timepoints ++ timepoints_rows }

/-- The `marker_data_objects` list built inside `seed_marker_data`
(seed_data.py:148-218): one record per cohort × marker × (timepoint index
`< 5`), with sequential `data_id`s.  The baseline/direction/noise time-series
arithmetic producing the two values (seed_data.py:156-203, pure unseeded
`np.random` output) is abstracted by the oracle `vals`, keyed by cohort id,
marker id and timepoint index; no claim concerns the numeric values. -/
def buildMarkerDataObjects (vals : ℕ → ℕ → ℕ → ℚ × ℚ) (st : SeedDB) :
    List SMarkerData :=
  ((st.cohorts.flatMap fun co =>
    st.markers.flatMap fun m =>
      (st.timepoints.enum.filter fun itp => itp.1 < 5).map fun itp =>
        (co.id, m.id, itp.2.id, vals co.id m.id itp.1)).enum).map fun ir =>
    ⟨ir.1 + 1, ir.2.1, ir.2.2.1, ir.2.2.2.1, (ir.2.2.2.2).1, (ir.2.2.2.2).2⟩

/-- `seed_marker_data` (seed_data.py:139-218): the `MarkerData` records are
constructed in memory, but the function ends without ever calling
`session.add_all(marker_data_objects)` or committing them — the session
state is returned unchanged. -/
def seed_marker_data (vals : ℕ → ℕ → ℕ → ℚ × ℚ) (st : SeedDB) : SeedDB :=
  let _marker_data_objects := buildMarkerDataObjects vals st
  st

/-- The nine cell types of `seed_cell_type_data` (seed_data.py:223-227). -/
def seed_cell_types : List String :=
  ["CD8+ T Cells", "CD4+ T Cells", "Regulatory T Cells", "NK Cells", "B Cells",
   "Monocytes", "Dendritic Cells", "Neutrophils", "MDSC"]

/-- `seed_cell_type_data` (seed_data.py:220-303): one row per cohort × cell
type with sequential ids, added and committed.  The pattern lookup plus noise
and clamping that produce the two frequencies (seed_data.py:230-286) are
abstracted by the oracle `freqs`, keyed by cohort id and cell-type index; no
claim concerns the numeric frequencies. -/
def seed_cell_type_data (freqs : ℕ → ℕ → ℚ × ℚ) (st : SeedDB) : SeedDB :=
  { st with cell_type_data := st.cell_type_data ++
      ((st.cohorts.flatMap fun co =>
        seed_cell_types.enum.map fun ict =>
          (co.id, ict.2, freqs co.id ict.1)).enum).map fun ir =>
        ⟨ir.1 + 1, ir.2.1, ir.2.2.1, (ir.2.2.2).1, (ir.2.2.2).2⟩ }

/-- `seed_database` (seed_data.py:305-323), success path: `init_db()` only
creates the schema (no rows), then the five seeding steps run in order on one
session. -/
def seed_database (vals : ℕ → ℕ → ℕ → ℚ × ℚ) (freqs : ℕ → ℕ → ℚ × ℚ)
    (st : SeedDB) : SeedDB :=
  seed_cell_type_data freqs
    (seed_marker_data vals (seed_timepoints (seed_markers (seed_cohorts st))))

end Seed

/-! ## Theorems -/

/-- The generated percentages of one specimen telescope: the last cell type
absorbs exactly what the draws left over, so the percentages of a nonempty
cell-type list sum to the initial remaining percentage. -/
theorem genCellPops_sum_percentage (t : ℤ) (u : ℕ → ℚ) (sid cid : ℕ) :
    ∀ (cts : List String), cts ≠ [] → ∀ (j : ℕ) (r : ℚ),
      ((genCellPops t u sid cid cts j r).map (fun cp => cp.percentage)).sum = r := by
  intro cts
  induction cts with
  | nil => intro h; exact absurd rfl h
  | cons ct cts ih =>
    intro _ j r
    cases cts with
    | nil => simp [genCellPops]
    | cons ct2 cts2 =>
      have htail := ih (by simp) (j + 1) (r - drawPct r (u j))
      simp only [genCellPops, List.map_cons, List.sum_cons, htail]
      ring

/-- C2: for every specimen produced by the sample-data generator, the
percentages of its eight generated cell populations (one per cell type in the
fixed list, the last absorbing the remainder) sum to 100.0 within a tolerance
of 1e-6 — in the exact rational model the sum is exactly 100 for every random
stream. -/
theorem claim_C2 (t : ℤ) (u : ℕ → ℚ) (sid cid : ℕ) :
    |((genCellPops t u sid cid cell_types 0 100).map
        (fun cp => cp.percentage)).sum - 100| ≤ 1/1000000 := by
  rw [genCellPops_sum_percentage t u sid cid cell_types (by decide) 0 100]
  norm_num

/-- The seeding pipeline appends exactly the five literal cohorts to the
cohorts table (the patient/specimen/population generators never touch it). -/
theorem seedPipeline_cohorts (g : Gen) (st : DB) :
    (seedPipeline g st).cohorts = st.cohorts ++ cohorts_data := by
  simp [seedPipeline, _generate_sample_cell_populations, _generate_sample_specimens,
    _generate_sample_patients, _load_cohorts]

/-- C3: `load_sample_data` is idempotent — seeding runs only when the cohorts
table is empty, so a second call after a first one is a no-op and in
particular leaves the cohort count unchanged. -/
theorem claim_C3 (g : Gen) (st : DB) :
    load_sample_data g (load_sample_data g st) = load_sample_data g st ∧
    (load_sample_data g (load_sample_data g st)).cohorts.length =
      (load_sample_data g st).cohorts.length := by
  have heq : load_sample_data g (load_sample_data g st) = load_sample_data g st := by
    by_cases h : st.cohorts.length = 0
    · have h1 : load_sample_data g st = seedPipeline g st := by
        unfold load_sample_data
        rw [if_pos h]
      have h2 : (seedPipeline g st).cohorts.length ≠ 0 := by
        rw [seedPipeline_cohorts]
        simp [cohorts_data]
      rw [h1]
      unfold load_sample_data
      rw [if_neg h2]
    · have h1 : load_sample_data g st = st := by
        unfold load_sample_data
        rw [if_neg h]
      rw [h1, h1]
  exact ⟨heq, by rw [heq]⟩

/-- C4 (amended): a failing initial `COUNT(*)` on `cohorts` is caught and
followed by exactly one schema-recreation retry; a successful retry produces
the normal result, but when the retried attempt also fails the exception
propagates to the caller instead of yielding a degraded/empty result. -/
theorem claim_C4_amended (e e2 : String) (n : ℕ) (g : Gen) (st : DB) :
    load_sample_data_result (.error e) (.ok n) g st =
      .ok (if n = 0 then seedPipeline g st else st) ∧
    load_sample_data_result (.error e) (.error e2) g st = .error e2 :=
  ⟨rfl, rfl⟩

/-- C4 counterexample: when both the initial access and the retried attempt
fail, the caller of `load_sample_data` receives a raised exception, not a
degraded/empty result — refuting the claim as stated. -/
theorem claim_C4_cex :
    load_sample_data_result (.error "no such table: cohorts")
        (.error "unable to open database file")
        ⟨fun _ => false, fun _ => 0, fun _ _ => [], fun _ => "Blood",
         fun _ => none, fun _ => 100000, fun _ _ => 0⟩ ⟨[], [], [], []⟩ =
      .error "unable to open database file" ∧
    ∀ d : DB, load_sample_data_result (.error "no such table: cohorts")
        (.error "unable to open database file")
        ⟨fun _ => false, fun _ => 0, fun _ _ => [], fun _ => "Blood",
         fun _ => none, fun _ => 100000, fun _ _ => 0⟩ ⟨[], [], [], []⟩ ≠
      .ok d := by
  refine ⟨rfl, fun d h => ?_⟩
  simp [load_sample_data_result] at h

/-- C8: `seed_marker_data` builds its `MarkerData` records in memory but never
adds them to the session, so `seed_database` leaves the `marker_data` table
exactly as it found it — zero rows when the database started empty. -/
theorem claim_C8 (vals : ℕ → ℕ → ℕ → ℚ × ℚ) (freqs : ℕ → ℕ → ℚ × ℚ)
    (st : Seed.SeedDB) :
    (Seed.seed_database vals freqs st).marker_data = st.marker_data ∧
    (st.marker_data = [] → (Seed.seed_database vals freqs st).marker_data = []) := by
  have h : (Seed.seed_database vals freqs st).marker_data = st.marker_data := by
    simp [Seed.seed_database, Seed.seed_cell_type_data, Seed.seed_marker_data,
      Seed.seed_timepoints, Seed.seed_markers, Seed.seed_cohorts]
  exact ⟨h, fun h0 => h.trans h0⟩

/-- Witness for C8: on a freshly initialized (empty) database, running the
whole `seed_database` pipeline leaves `marker_data` with zero rows. -/
theorem claim_C8_witness :
    (Seed.seed_database (fun _ _ _ => (0, 0)) (fun _ _ => (0, 0))
      ⟨[], [], [], [], []⟩).marker_data = [] :=
  (claim_C8 (fun _ _ _ => (0, 0)) (fun _ _ => (0, 0)) ⟨[], [], [], [], []⟩).2 rfl

/-- C5 (amended): every generated cell population stores
`cell_count = int(percentage / 100 * total_cells)` — Python `int()`
truncation toward zero (the floor, for nonnegative values), not rounding. -/
theorem claim_C5_amended (t : ℤ) (u : ℕ → ℚ) (sid cid : ℕ) :
    ∀ (cts : List String) (j : ℕ) (r : ℚ),
      ∀ cp ∈ genCellPops t u sid cid cts j r,
        cp.cell_count = pyInt (cp.percentage / 100 * t) := by
  intro cts
  induction cts with
  | nil => intro j r cp h; simp [genCellPops] at h
  | cons ct cts ih =>
    intro j r cp h
    cases cts with
    | nil =>
      simp only [genCellPops, List.mem_singleton] at h
      rw [h]
    | cons ct2 cts2 =>
      simp only [genCellPops, List.mem_cons] at h
      rcases h with h | h
      · rw [h]
      · exact ih (j + 1) (r - drawPct r (u j)) cp h

/-- Witness for C5 (amended): with all uniform parameters 0 and
`total_cells = 100199`, the first generated population has `percentage = 0.5`
and stores `cell_count = int(500.995) = 500`. -/
theorem claim_C5_amended_witness :
    (⟨1, 1, "CD4 T Central Memory", 500, 1/2⟩ : CellPopulation) ∈
      genCellPops 100199 (fun _ => 0) 1 1 cell_types 0 100 ∧
    (500 : ℤ) = pyInt ((1/2 : ℚ) / 100 * 100199) := by
  have hmem : (⟨1, 1, "CD4 T Central Memory", 500, 1/2⟩ : CellPopulation) ∈
      genCellPops 100199 (fun _ => 0) 1 1 cell_types 0 100 := by
    norm_num [genCellPops, cell_types, drawPct, maxPct, pyInt]
  exact ⟨hmem, claim_C5_amended 100199 (fun _ => 0) 1 1 cell_types 0 100
    ⟨1, 1, "CD4 T Central Memory", 500, 1/2⟩ hmem⟩

/-- C5 counterexample: at `total_cells = 100199` and a draw of exactly 0.5%,
the stored count is `int(500.995) = 500` while `round(500.995) = 501`, so the
claimed `cell_count = round(percentage / 100 * total_cells)` fails. -/
theorem claim_C5_cex :
    ∃ cp ∈ genCellPops 100199 (fun _ => 0) 1 1 cell_types 0 100,
      cp.cell_count ≠ round (cp.percentage / 100 * (100199 : ℚ)) := by
  have hmem : ((500 : ℤ), (1/2 : ℚ)) ∈
      (genCellPops 100199 (fun _ => 0) 1 1 cell_types 0 100).map
        (fun cp => (cp.cell_count, cp.percentage)) := by
    norm_num [genCellPops, cell_types, drawPct, maxPct, pyInt]
  obtain ⟨cp, hcp, heq⟩ := List.mem_map.mp hmem
  rw [Prod.ext_iff] at heq
  obtain ⟨h1, h2⟩ := heq
  simp only at h1 h2
  refine ⟨cp, hcp, ?_⟩
  rw [h1, h2]
  norm_num [round_eq]

/-- C10 (amended): a non-final draw is the value
`0.5 + (min(0.8 * remaining, 50) - 0.5) * u` with `u ∈ [0, 1)`; whenever the
remaining percentage is still at least 0.625 before the draw, the draw lies
between 0.5 and `min(0.8 * remaining, 50)` and the remaining percentage stays
strictly positive afterwards.  (Without that proviso the bound and the
positivity fail — see the counterexample.) -/
theorem claim_C10_amended (r u : ℚ) (hr : 5/8 ≤ r) (h0 : 0 ≤ u) (h1 : u < 1) :
    1/2 ≤ drawPct r u ∧ drawPct r u ≤ maxPct r ∧ 0 < r - drawPct r u := by
  have hm : 1/2 ≤ maxPct r := by
    unfold maxPct
    apply le_min
    · linarith
    · norm_num
  have hmr : maxPct r ≤ r * (8/10) := min_le_left _ _
  have hd1 : (0 : ℚ) ≤ (maxPct r - 1/2) * u := mul_nonneg (by linarith) h0
  have hd2 : (maxPct r - 1/2) * u ≤ maxPct r - 1/2 :=
    mul_le_of_le_one_right (by linarith) (le_of_lt h1)
  refine ⟨?_, ?_, ?_⟩
  · unfold drawPct; linarith
  · unfold drawPct; linarith
  · unfold drawPct; linarith

/-- Witness for C10 (amended): at the first draw of a specimen
(`remaining = 100`, `u = 0`) the hypotheses hold and the bounds apply. -/
theorem claim_C10_amended_witness :
    (5/8 : ℚ) ≤ 100 ∧ (0 : ℚ) ≤ 0 ∧ (0 : ℚ) < 1 ∧
    (1/2 ≤ drawPct 100 0 ∧ drawPct 100 0 ≤ maxPct 100 ∧ 0 < 100 - drawPct 100 0) :=
  ⟨by norm_num, le_refl 0, by norm_num,
    claim_C10_amended 100 0 (by norm_num) (le_refl 0) (by norm_num)⟩

/-- C10 counterexample: after four maximal draws the remaining percentage
falls to about 0.448 < 0.625; the next `np.random.uniform(0.5, max_pct)` has
its bounds inverted and can draw 0.5 > remaining, driving the remainder
negative — the final population of this concrete stream has
percentage ≈ -1.0519 < 0, refuting the claimed strict positivity. -/
theorem claim_C10_cex :
    ∃ cp ∈ genCellPops 500000 (fun j => if j < 4 then 99/100 else 0) 1 1
        cell_types 0 100, cp.percentage < 0 := by
  have hmem : ((-410881351/390625000 : ℚ)) ∈
      (genCellPops 500000 (fun j => if j < 4 then 99/100 else 0) 1 1
        cell_types 0 100).map (fun cp => cp.percentage) := by
    norm_num [genCellPops, cell_types, drawPct, maxPct, pyInt]
  obtain ⟨cp, hcp, heq⟩ := List.mem_map.mp hmem
  exact ⟨cp, hcp, by rw [heq]; norm_num⟩

/-- C7: in `calculate_response_prediction_metrics`, a responder group with
zero patients yields a SQL `NULL` average — the returned row represents the
group average as a missing value (`none`), never as the number zero. -/
theorem claim_C7 (db : DB) (cohort_id : ℕ) (cts : List String) :
    ∀ row ∈ calculate_response_prediction_metrics db cohort_id cts,
      (row.responder_count = 0 → row.avg_responder = none) ∧
      (row.non_responder_count = 0 → row.avg_non_responder = none) := by
  intro row hrow
  rw [calculate_response_prediction_metrics] at hrow
  obtain ⟨ct, _, hct⟩ := List.mem_map.mp hrow
  subst hct
  constructor
  · intro h0
    simp only [response_prediction_row] at h0 ⊢
    rw [List.length_map, List.length_eq_zero] at h0
    rw [h0]
    simp [sqlAvg]
  · intro h0
    simp only [response_prediction_row] at h0 ⊢
    rw [List.length_map, List.length_eq_zero] at h0
    rw [h0]
    simp [sqlAvg]

/-- Witness for C7: a cohort whose only patient is a non-responder produces a
metrics row with `responder_count = 0` and `avg_responder = none`. -/
theorem claim_C7_witness :
    (response_prediction_row
        ⟨[], [⟨1, 1, false⟩], [⟨1, 1, "Baseline", "Blood", none⟩],
         [⟨1, 1, "NK Cells", 100, 10⟩]⟩ 1 "NK Cells") ∈
      calculate_response_prediction_metrics
        ⟨[], [⟨1, 1, false⟩], [⟨1, 1, "Baseline", "Blood", none⟩],
         [⟨1, 1, "NK Cells", 100, 10⟩]⟩ 1 ["NK Cells"] ∧
    (response_prediction_row
        ⟨[], [⟨1, 1, false⟩], [⟨1, 1, "Baseline", "Blood", none⟩],
         [⟨1, 1, "NK Cells", 100, 10⟩]⟩ 1 "NK Cells").responder_count = 0 ∧
    (response_prediction_row
        ⟨[], [⟨1, 1, false⟩], [⟨1, 1, "Baseline", "Blood", none⟩],
         [⟨1, 1, "NK Cells", 100, 10⟩]⟩ 1 "NK Cells").avg_responder = none := by
  have hmem : (response_prediction_row
      ⟨[], [⟨1, 1, false⟩], [⟨1, 1, "Baseline", "Blood", none⟩],
       [⟨1, 1, "NK Cells", 100, 10⟩]⟩ 1 "NK Cells") ∈
      calculate_response_prediction_metrics
        ⟨[], [⟨1, 1, false⟩], [⟨1, 1, "Baseline", "Blood", none⟩],
         [⟨1, 1, "NK Cells", 100, 10⟩]⟩ 1 ["NK Cells"] := by
    simp [calculate_response_prediction_metrics]
  have hcount : (response_prediction_row
      ⟨[], [⟨1, 1, false⟩], [⟨1, 1, "Baseline", "Blood", none⟩],
       [⟨1, 1, "NK Cells", 100, 10⟩]⟩ 1 "NK Cells").responder_count = 0 := by
    simp [response_prediction_row, perPatientRows, avgList]
  exact ⟨hmem, hcount,
    (claim_C7 ⟨[], [⟨1, 1, false⟩], [⟨1, 1, "Baseline", "Blood", none⟩],
        [⟨1, 1, "NK Cells", 100, 10⟩]⟩ 1 ["NK Cells"] _ hmem).1 hcount⟩

/-- Every row surviving `find_discriminating_cell_types`'s sort/filter comes
from the inner join `discJoin`. -/
theorem mem_discJoin_of_mem_find {db : DB} {c : ℕ} {md : ℚ} {row : DiscRow}
    (h : row ∈ find_discriminating_cell_types db c md) : row ∈ discJoin db c := by
  simp only [find_discriminating_cell_types] at h
  split at h
  · exact (List.mem_insertionSort discGE).mp (List.mem_filter.mp h).1
  · exact (List.mem_insertionSort discGE).mp h

/-- Every subquery row's cell type is the cell type of some underlying join
row of that responder group. -/
theorem discSubquery_fst_mem {db : DB} {c : ℕ} {resp : Bool} {x : String × ℚ}
    (h : x ∈ discSubquery db c resp) :
    ∃ pr ∈ discJoinedRows db c resp, pr.1 = x.1 := by
  simp only [discSubquery, List.mem_map, List.mem_dedup] at h
  obtain ⟨ct, ⟨pr, hpr, hfst⟩, hx⟩ := h
  exact ⟨pr, hpr, by rw [hfst, ← hx]⟩

/-- A joined row's cell type appears among the join rows of BOTH responder
groups: the join on `cell_type` is an inner join. -/
theorem discJoin_cell_type_mem {db : DB} {c : ℕ} {row : DiscRow}
    (h : row ∈ discJoin db c) :
    (∃ pr ∈ discJoinedRows db c true, pr.1 = row.cell_type) ∧
    (∃ pr ∈ discJoinedRows db c false, pr.1 = row.cell_type) := by
  simp only [discJoin, List.mem_flatMap, List.mem_map, List.mem_filter,
    beq_iff_eq] at h
  obtain ⟨ar, har, an, ⟨hanmem, haneq⟩, hrow⟩ := h
  have hct : row.cell_type = ar.1 := by rw [← hrow]
  constructor
  · obtain ⟨pr, hpr, hfst⟩ := discSubquery_fst_mem har
    exact ⟨pr, hpr, by rw [hfst, hct]⟩
  · obtain ⟨pr, hpr, hfst⟩ := discSubquery_fst_mem hanmem
    exact ⟨pr, hpr, by rw [hfst, haneq, hct]⟩

/-- When no patient of the cohort carries the responder flag `resp`, the
joined row set of that group is empty. -/
theorem discJoinedRows_eq_nil {db : DB} {c : ℕ} {resp : Bool}
    (h : ∀ p ∈ db.patients, ¬(p.cohort_id = c ∧ p.responder = resp)) :
    discJoinedRows db c resp = [] := by
  rw [discJoinedRows, List.flatMap_eq_nil_iff]
  intro cp _
  rw [List.flatMap_eq_nil_iff]
  intro s _
  rw [List.map_eq_nil_iff, List.filter_eq_nil_iff]
  intro p hp
  simp only [Bool.and_eq_true, beq_iff_eq]
  rintro ⟨⟨-, hcoh⟩, hresp⟩
  exact h p hp ⟨hcoh, hresp⟩

/-- An empty joined row set empties the per-cell-type average subquery. -/
theorem discSubquery_eq_nil {db : DB} {c : ℕ} {resp : Bool}
    (h : discJoinedRows db c resp = []) : discSubquery db c resp = [] := by
  simp [discSubquery, h]

/-- An empty responder-side subquery empties the whole inner join. -/
theorem discJoin_eq_nil_left {db : DB} {c : ℕ}
    (h : discSubquery db c true = []) : discJoin db c = [] := by
  simp [discJoin, h]

/-- An empty non-responder-side subquery empties the whole inner join. -/
theorem discJoin_eq_nil_right {db : DB} {c : ℕ}
    (h : discSubquery db c false = []) : discJoin db c = [] := by
  rw [discJoin, List.flatMap_eq_nil_iff]
  intro ar _
  simp [h]

/-- An empty join makes the whole query result empty. -/
theorem find_eq_nil_of_discJoin_nil {db : DB} {c : ℕ} {md : ℚ}
    (h : discJoin db c = []) : find_discriminating_cell_types db c md = [] := by
  simp [find_discriminating_cell_types, h]

/-- C9: `find_discriminating_cell_types` inner-joins the responder-average and
non-responder-average subqueries on cell type, so a cell type whose population
rows all belong to a single responder group is omitted from the result; in
particular, for a cohort with zero responder patients or zero non-responder
patients the result is empty. -/
theorem claim_C9 (db : DB) (c : ℕ) (md : ℚ) (ct : String) :
    ((∀ pr ∈ discJoinedRows db c false, pr.1 ≠ ct) →
      ∀ row ∈ find_discriminating_cell_types db c md, row.cell_type ≠ ct) ∧
    ((∀ pr ∈ discJoinedRows db c true, pr.1 ≠ ct) →
      ∀ row ∈ find_discriminating_cell_types db c md, row.cell_type ≠ ct) ∧
    ((∀ p ∈ db.patients, p.cohort_id = c → p.responder = false) →
      find_discriminating_cell_types db c md = []) ∧
    ((∀ p ∈ db.patients, p.cohort_id = c → p.responder = true) →
      find_discriminating_cell_types db c md = []) := by
  refine ⟨?_, ?_, ?_, ?_⟩
  · intro h row hrow hcteq
    obtain ⟨-, pr, hpr, hfst⟩ := discJoin_cell_type_mem (mem_discJoin_of_mem_find hrow)
    exact h pr hpr (hfst.trans hcteq)
  · intro h row hrow hcteq
    obtain ⟨⟨pr, hpr, hfst⟩, -⟩ := discJoin_cell_type_mem (mem_discJoin_of_mem_find hrow)
    exact h pr hpr (hfst.trans hcteq)
  · intro h
    apply find_eq_nil_of_discJoin_nil
    apply discJoin_eq_nil_left
    apply discSubquery_eq_nil
    apply discJoinedRows_eq_nil
    intro p hp hcontra
    have := h p hp hcontra.1
    rw [this] at hcontra
    exact Bool.noConfusion hcontra.2
  · intro h
    apply find_eq_nil_of_discJoin_nil
    apply discJoin_eq_nil_right
    apply discSubquery_eq_nil
    apply discJoinedRows_eq_nil
    intro p hp hcontra
    have := h p hp hcontra.1
    rw [this] at hcontra
    exact Bool.noConfusion hcontra.2

/-- Witness for C9: a cohort whose only patient is a non-responder yields an
empty discriminating-cell-types result. -/
theorem claim_C9_witness :
    find_discriminating_cell_types
      ⟨[], [⟨1, 1, false⟩], [⟨1, 1, "Baseline", "Blood", none⟩],
       [⟨1, 1, "B Cells", 100, 10⟩]⟩ 1 5 = [] :=
  (claim_C9 ⟨[], [⟨1, 1, false⟩], [⟨1, 1, "Baseline", "Blood", none⟩],
      [⟨1, 1, "B Cells", 100, 10⟩]⟩ 1 5 "B Cells").2.2.1
    (by intro p hp _; simp at hp; rw [hp])

/-- Every row of the inner join carries `difference` and `abs_difference`
computed from its own average columns. -/
theorem discJoin_fields (db : DB) (c : ℕ) :
    ∀ row ∈ discJoin db c,
      row.difference = row.avg_percentage_responder - row.avg_percentage_non_responder ∧
      row.abs_difference = |row.difference| := by
  intro row h
  simp only [discJoin, List.mem_flatMap, List.mem_map, List.mem_filter,
    beq_iff_eq] at h
  obtain ⟨ar, har, an, ⟨hanmem, haneq⟩, hrow⟩ := h
  rw [← hrow]
  exact ⟨rfl, rfl⟩

/-- C1: every row returned by `find_discriminating_cell_types` satisfies
`difference = avg_percentage_responder - avg_percentage_non_responder` exactly
(sign preserved) and `abs_difference = |difference|`; the rows come out sorted
by descending `abs_difference`; and no returned row has
`abs_difference < min_difference`. -/
theorem claim_C1 (db : DB) (c : ℕ) (md : ℚ) :
    (∀ row ∈ find_discriminating_cell_types db c md,
      row.difference = row.avg_percentage_responder - row.avg_percentage_non_responder ∧
      row.abs_difference = |row.difference|) ∧
    List.Sorted discGE (find_discriminating_cell_types db c md) ∧
    (∀ row ∈ find_discriminating_cell_types db c md,
      ¬ row.abs_difference < md) := by
  refine ⟨?_, ?_, ?_⟩
  · intro row hrow
    exact discJoin_fields db c row (mem_discJoin_of_mem_find hrow)
  · simp only [find_discriminating_cell_types]
    split
    · exact (List.sorted_insertionSort discGE _).filter _
    · exact List.sorted_insertionSort discGE _
  · intro row hrow
    have hfields := discJoin_fields db c row (mem_discJoin_of_mem_find hrow)
    simp only [find_discriminating_cell_types] at hrow
    split at hrow
    · have := (List.mem_filter.mp hrow).2
      exact not_lt.mpr (of_decide_eq_true this)
    · rename_i hcond
      rcases not_and_or.mp hcond with hdf | hmd
      · rw [not_not] at hdf
        rw [hdf] at hrow
        exact absurd hrow (List.not_mem_nil row)
      · apply not_lt.mpr
        calc md ≤ 0 := le_of_not_lt hmd
          _ ≤ |row.difference| := abs_nonneg _
          _ = row.abs_difference := hfields.2.symm

/-- Witness for C1: a cohort with one responder (10%) and one non-responder
(5%) on cell type "NK Cells" yields the single row
(avg 10, avg 5, difference 5, abs 5), retained at the default threshold —
and the claimed row properties hold on it. -/
theorem claim_C1_witness :
    find_discriminating_cell_types
        ⟨[], [⟨1, 1, true⟩, ⟨2, 1, false⟩],
         [⟨1, 1, "Baseline", "Blood", none⟩, ⟨2, 2, "Baseline", "Blood", none⟩],
         [⟨1, 1, "NK Cells", 100, 10⟩, ⟨2, 2, "NK Cells", 50, 5⟩]⟩ 1 5 =
      [⟨"NK Cells", 10, 5, 5, 5⟩] ∧
    ((∀ row ∈ find_discriminating_cell_types
        ⟨[], [⟨1, 1, true⟩, ⟨2, 1, false⟩],
         [⟨1, 1, "Baseline", "Blood", none⟩, ⟨2, 2, "Baseline", "Blood", none⟩],
         [⟨1, 1, "NK Cells", 100, 10⟩, ⟨2, 2, "NK Cells", 50, 5⟩]⟩ 1 5,
      row.difference = row.avg_percentage_responder - row.avg_percentage_non_responder ∧
      row.abs_difference = |row.difference|) ∧
    List.Sorted discGE (find_discriminating_cell_types
        ⟨[], [⟨1, 1, true⟩, ⟨2, 1, false⟩],
         [⟨1, 1, "Baseline", "Blood", none⟩, ⟨2, 2, "Baseline", "Blood", none⟩],
         [⟨1, 1, "NK Cells", 100, 10⟩, ⟨2, 2, "NK Cells", 50, 5⟩]⟩ 1 5) ∧
    (∀ row ∈ find_discriminating_cell_types
        ⟨[], [⟨1, 1, true⟩, ⟨2, 1, false⟩],
         [⟨1, 1, "Baseline", "Blood", none⟩, ⟨2, 2, "Baseline", "Blood", none⟩],
         [⟨1, 1, "NK Cells", 100, 10⟩, ⟨2, 2, "NK Cells", 50, 5⟩]⟩ 1 5,
      ¬ row.abs_difference < 5)) :=
  ⟨by norm_num [find_discriminating_cell_types, discJoin, discSubquery,
      discJoinedRows, avgList, List.insertionSort, List.orderedInsert,
      List.filter, List.dedup, List.flatMap],
   claim_C1 ⟨[], [⟨1, 1, true⟩, ⟨2, 1, false⟩],
       [⟨1, 1, "Baseline", "Blood", none⟩, ⟨2, 2, "Baseline", "Blood", none⟩],
       [⟨1, 1, "NK Cells", 100, 10⟩, ⟨2, 2, "NK Cells", 50, 5⟩]⟩ 1 5⟩

/-- Restricted to the fixed timepoint vocabulary, lexical (BINARY-collation)
string order coincides with the chronological rank order: the labels were
chosen so ASCII order is chronological order. -/
theorem strLeb_vocab_mono :
    ∀ x ∈ timepoint_vocab, ∀ y ∈ timepoint_vocab,
      strLeb x y = true → chronoRank x ≤ chronoRank y := by decide

/-- Every join row of `get_cell_type_comparison` takes its timepoint from
some specimen of the database. -/
theorem compJoinedRows_timepoint {db : DB} {c : ℕ} {ct : String}
    {tps : Option (List String)} {r : CompSrcRow}
    (h : r ∈ compJoinedRows db c ct tps) :
    ∃ s ∈ db.specimens, r.timepoint = s.timepoint := by
  simp only [compJoinedRows, List.mem_flatMap] at h
  obtain ⟨p, hp, hr⟩ := h
  split at hr
  · simp only [List.mem_flatMap, List.mem_map, List.mem_filter] at hr
    obtain ⟨s, ⟨hs, -⟩, cp, hcp, hreq⟩ := hr
    exact ⟨s, hs, by rw [← hreq]⟩
  · exact absurd hr (List.not_mem_nil r)

/-- Every output row of `get_cell_type_comparison` takes its timepoint from
some specimen of the database. -/
theorem get_cell_type_comparison_timepoint {db : DB} {c : ℕ} {ct : String}
    {tps : Option (List String)} {row : CompRow}
    (h : row ∈ get_cell_type_comparison db c ct tps) :
    ∃ s ∈ db.specimens, row.timepoint = s.timepoint := by
  simp only [get_cell_type_comparison] at h
  rw [List.mem_insertionSort] at h
  simp only [List.mem_map, List.mem_dedup] at h
  obtain ⟨k, ⟨r, hr, hk⟩, hrow⟩ := h
  obtain ⟨s, hs, hts⟩ := compJoinedRows_timepoint hr
  refine ⟨s, hs, ?_⟩
  rw [← hrow]
  show k.timepoint = s.timepoint
  rw [← hk]
  exact hts

/-- C6: for every cohort, cell type and optional timepoint filter, the rows
returned by `get_cell_type_comparison` are ordered by timepoint according to
the fixed chronological vocabulary whenever the stored timepoints come from
that vocabulary (as all generated data does): the SQL `ORDER BY` compares the
label strings, and on this vocabulary string order is chronological order. -/
theorem claim_C6 (db : DB) (c : ℕ) (ct : String) (tps : Option (List String))
    (h : ∀ s ∈ db.specimens, s.timepoint ∈ timepoint_vocab) :
    List.Sorted (fun a b : CompRow => chronoRank a.timepoint ≤ chronoRank b.timepoint)
      (get_cell_type_comparison db c ct tps) := by
  have hsorted : List.Sorted compTpLE (get_cell_type_comparison db c ct tps) := by
    simp only [get_cell_type_comparison]
    exact List.sorted_insertionSort compTpLE _
  have hvocab : ∀ row ∈ get_cell_type_comparison db c ct tps,
      row.timepoint ∈ timepoint_vocab := by
    intro row hrow
    obtain ⟨s, hs, hts⟩ := get_cell_type_comparison_timepoint hrow
    rw [hts]
    exact h s hs
  exact List.Pairwise.imp_of_mem
    (fun ha hb hr => strLeb_vocab_mono _ (hvocab _ ha) _ (hvocab _ hb) hr) hsorted

/-- Witness for C6: a database whose only specimen sits at timepoint "C1D14"
(an element of the vocabulary) satisfies the hypothesis, and the resulting
comparison rows are chronologically sorted. -/
theorem claim_C6_witness :
    List.Sorted (fun a b : CompRow => chronoRank a.timepoint ≤ chronoRank b.timepoint)
      (get_cell_type_comparison
        ⟨[], [⟨1, 1, true⟩], [⟨1, 1, "C1D14", "Blood", none⟩],
         [⟨1, 1, "NK Cells", 100, 10⟩]⟩ 1 "NK Cells" none) :=
  claim_C6 ⟨[], [⟨1, 1, true⟩], [⟨1, 1, "C1D14", "Blood", none⟩],
      [⟨1, 1, "NK Cells", 100, 10⟩]⟩ 1 "NK Cells" none (by decide)

end ImmuneAtlas

